import Mathlib

/-!
Shallow embedding of `src/Forwardbot.py`, a single-file Discord-to-HTTP
forwarding bridge.  The handler `on_message` is modelled as a pure function
from a bot state and an inbound message to a new bot state plus a trace of
observable actions (HTTP POST attempts and log lines); the HTTP environment
is summarised by a `PostOutcome` value (a response with status and body, or
an exception raised inside the POST).  Machine-level details that the
claims do not touch (the discord gateway, the event loop, aiohttp internals)
are out of scope; the fields the code reads from a `discord.Message` become
fields of the `Message` structure.
-/

namespace Forwardbot

/-- One attachment of an inbound message: the code reads
`a.filename`, `a.url`, `a.content_type` (may be `None`) and `a.size`. -/
structure Attachment where
  filename : String
  url : String
  contentType : Option String
  size : Nat
  deriving DecidableEq, Repr

/-- The serialized form of an embed, as returned by `e.to_dict()`.
The code treats the dict opaquely (it is appended to a list as-is),
so we model it as an association list of string fields. -/
abbrev EmbedDict := List (String × String)

/-- An embed object of an inbound message.  Its only use in the code is the
call `e.to_dict()`, which may raise; `toDict = none` models a raising
serialization, `toDict = some d` a successful one returning `d`. -/
structure Embed where
  toDict : Option EmbedDict
  deriving DecidableEq, Repr

/-- The fields of a `discord.Message` that `on_message` reads.
`content` is `Option String` (`None` or a string, possibly empty) because
the code applies Python truthiness to it (`message.content or ""`);
`channelName` is optional because the code uses
`getattr(message.channel, "name", None)`; `createdAtIso` stands for
`message.created_at.replace(tzinfo=timezone.utc).isoformat()`, which the
code only ever converts to a string. -/
structure Message where
  id : Nat
  authorId : Nat
  authorName : String
  channelId : Nat
  channelName : Option String
  content : Option String
  attachments : List Attachment
  embeds : List Embed
  createdAtIso : String
  deriving DecidableEq, Repr

/-- One entry of the JSON attachment array built at lines 154-160. -/
structure AttachmentJson where
  filename : String
  url : String
  contentType : Option String
  size : Nat
  deriving DecidableEq, Repr

/-- The forward payload dict built at lines 169-178. -/
structure Payload where
  channelId : String
  channelName : Option String
  authorId : String
  authorName : String
  content : String
  attachments : List AttachmentJson
  embeds : List EmbedDict
  createdAt : String
  deriving DecidableEq, Repr

/-- The aiohttp client session, as far as the code inspects it:
only its `closed` flag is ever read. -/
structure Session where
  closed : Bool
  deriving DecidableEq, Repr

/-- The module-level mutable state of the bot: the dedup set `RECENT_IDS`
and the shared `http_session` (absent before `on_ready` runs). -/
structure BotState where
  recentIds : Finset Nat
  httpSession : Option Session
  deriving DecidableEq

/-- Startup configuration: the bot's own user id (`client.user.id`) and the
raw `INGEST_TOKEN` environment value (`os.getenv` returns `None` when the
variable is unset). -/
structure Config where
  botUserId : Nat
  ingestTokenEnv : Option String
  deriving DecidableEq, Repr

/-- Line 14: `INGEST_TOKEN = (os.getenv("INGEST_TOKEN") or "").strip()`. -/
def INGEST_TOKEN (cfg : Config) : String :=
  (cfg.ingestTokenEnv.getD "").trim

/-- Line 15: the fixed ingestion URL. -/
def API_URL : String := "https://dacapperclub.onrender.com/picks"

/-- Lines 22-87: the allow-list of source channel ids. -/
def SOURCE_CHANNEL_IDS : List Nat := [
  1376084801974567033,
  1355683438455160892,
  1437566118511382548,
  1438456354531709009,
  1341495756019863572,
  1341495848973893725,
  1424866369635090472,
  1341495927994581074,
  1438379286779265154,
  1341495943815630908,
  1429291734550057032,
  1341496027374424114,
  1355684172844367872,
  1341498223336099840,
  1373974011049938954,
  1341499471812624465,
  1422712121145430137,
  1340466570303897613,
  1341493924187078810,
  1341495657546121256,
  1438456068471652364,
  1375638948331917432,
  1366617380947492905,
  1423891465305718814,
  1429292260750790769,
  1352867581694054520,
  1358600346162823225,
  1355683644164800714,
  1341495693164019752,
  1438379846693556255,
  1373750190061781002,
  1362542525482537131,
  1341495872684556340,
  1366617614863826975,
  1364334395355304026,
  1341495902707253351,
  1351112911715831829,
  1352867416576622663,
  1341495966695690394,
  1341495978317840384,
  1351109955574304849,
  1341496002569310218,
  1343588079348486244,
  1350407569960861696,
  1350408208522547200,
  1341498236770324590,
  1341498268969865246,
  1350408056147677264,
  1341495989466304624,
  1352382567298629764,
  1355684864396890132,
  1341500024713904302,
  1375270170330792108,
  1359371937775878264,
  1368323336257540148,
  1341497886638215178,
  1366528741592797224,
  1341498255258812540,
  1341499454376775831,
  1053085749865623562,
  1219395974355746846,
  1053085779422871613,
  1053085807382110310,
  1053085694836346880]

/-- The outcome of the `session.post` context at lines 101-111, chosen by
the network environment: a response with a status code and body text, or
an exception raised anywhere inside the `try` block (connection error,
timeout, serialization failure). -/
inductive PostOutcome where
  | response (status : Nat) (body : String)
  | exc (msg : String)
  deriving DecidableEq, Repr

/-- The externally observable actions of one handler run: an HTTP POST
attempt (with its URL, JSON payload, headers and total timeout in
seconds), or a `print` log line. -/
inductive Action where
  | httpPost (url : String) (payload : Payload) (headers : List (String × String)) (timeoutTotal : Nat)
  | log (line : String)
  deriving DecidableEq, Repr

/-- Whether an action is an HTTP POST attempt. -/
def Action.isPost : Action → Bool
  | .httpPost _ _ _ _ => true
  | .log _ => false

/-- The number of HTTP POST attempts in a trace. -/
def countPosts (acts : List Action) : Nat :=
  acts.countP Action.isPost

/-- Lines 96-98: `headers = {"Content-Type": "application/json"}` and the
conditional `x-ingest-token` entry, added only when `INGEST_TOKEN` is
truthy (a non-empty string). -/
def mkHeaders (ingestToken : String) : List (String × String) :=
  if ingestToken ≠ "" then
    [("Content-Type", "application/json"), ("x-ingest-token", ingestToken)]
  else
    [("Content-Type", "application/json")]

/-- Lines 91-114: `post_to_website`.  Returns the action trace of one call:
nothing when `API_URL` is falsy; otherwise the POST attempt (with a total
timeout of 10 seconds) followed by the logs the response branch or the
`except` branch prints.  The function is total: every outcome of the POST,
the exception case included, is handled and yields a trace, so nothing
propagates to the caller. -/
def post_to_website (ingestToken : String) (payload : Payload) (oc : PostOutcome) : List Action :=
  if API_URL = "" then []
  else
    Action.httpPost API_URL payload (mkHeaders ingestToken) 10 ::
      match oc with
      | .response status body =>
          Action.log ("✅ Posted to website " ++ toString status) ::
            (if status ≠ 200 then [Action.log ("⚠️ Website response: " ++ body)] else [])
      | .exc e => [Action.log ("❌ Website POST error: " ++ e)]

/-- Lines 154-160: the attachment loop body, one dict per attachment. -/
def mkAttachmentJson (a : Attachment) : AttachmentJson :=
  { filename := a.filename, url := a.url, contentType := a.contentType, size := a.size }

/-- Lines 153-160: `attachments = []` followed by a loop appending
`mkAttachmentJson a` for each attachment, in order. -/
def buildAttachments (as : List Attachment) : List AttachmentJson :=
  as.foldl (fun acc a => acc ++ [mkAttachmentJson a]) []

/-- Lines 162-167: `embeds = []` followed by a loop appending `e.to_dict()`
for each embed, skipping (via `try`/`except: pass`) any embed whose
serialization raises. -/
def buildEmbeds (es : List Embed) : List EmbedDict :=
  es.foldl (fun acc e => match e.toDict with | some d => acc ++ [d] | none => acc) []

/-- Line 174: `message.content or ""` under Python truthiness — `None` and
the empty string are falsy, so both map to `""`. -/
def pyOrEmpty (c : Option String) : String :=
  match c with
  | none => ""
  | some s => if s = "" then "" else s

/-- Lines 169-178: the forward payload built from the message fields. -/
def buildPayload (m : Message) : Payload :=
  { channelId := toString m.channelId,
    channelName := m.channelName,
    authorId := toString m.authorId,
    authorName := m.authorName,
    content := pyOrEmpty m.content,
    attachments := buildAttachments m.attachments,
    embeds := buildEmbeds m.embeds,
    createdAt := m.createdAtIso }

/-- Line 180: the forwarding log line printed before the session check. -/
def forwardLogLine (m : Message) : String :=
  "📨 Forwarding message from " ++ toString m.channelId ++ " by " ++ m.authorName ++
    ": " ++ (match m.content with | none => "None" | some s => s)

/-- Lines 144-148: insert the message id into `RECENT_IDS`, then clear the
whole set when its size exceeds 5000. -/
def ledgerAfterInsert (ids : Finset Nat) (msgId : Nat) : Finset Nat :=
  let ids' := insert msgId ids
  if ids'.card > 5000 then ∅ else ids'

/-- Lines 131-187: the `on_message` handler.  Filters self-authored
messages and unmonitored channels, deduplicates on the message id,
updates the ledger, builds the payload, prints the forwarding log, and —
only when the shared session exists and is open — calls
`post_to_website`. -/
def on_message (cfg : Config) (st : BotState) (m : Message) (oc : PostOutcome) :
    BotState × List Action :=
  if m.authorId = cfg.botUserId then (st, [])
  else if m.channelId ∉ SOURCE_CHANNEL_IDS then (st, [])
  else if m.id ∈ st.recentIds then (st, [])
  else
    let st' : BotState := { st with recentIds := ledgerAfterInsert st.recentIds m.id }
    let payload := buildPayload m
    let preActs := [Action.log (forwardLogLine m)]
    match st.httpSession with
    | none => (st', preActs)
    | some s =>
        if s.closed then (st', preActs)
        else (st', preActs ++ post_to_website (INGEST_TOKEN cfg) payload oc)

/-- A whole sequence of handler runs, threading the bot state; each event
pairs the inbound message with the outcome its POST would meet. -/
def run_messages (cfg : Config) (st : BotState) (evs : List (Message × PostOutcome)) : BotState :=
  evs.foldl (fun s ev => (on_message cfg s ev.1 ev.2).1) st

/-! ## Helper lemmas -/

theorem foldl_append_singleton {α β : Type} (f : α → β) :
    ∀ (as : List α) (acc : List β),
      as.foldl (fun acc a => acc ++ [f a]) acc = acc ++ as.map f := by
  intro as
  induction as with
  | nil => intro acc; simp
  | cons a as ih => intro acc; simp [List.foldl_cons, ih]

theorem buildAttachments_eq_map (as : List Attachment) :
    buildAttachments as = as.map mkAttachmentJson := by
  simpa using foldl_append_singleton mkAttachmentJson as []

theorem foldl_filterMap_step (g : Embed → Option EmbedDict) :
    ∀ (es : List Embed) (acc : List EmbedDict),
      es.foldl (fun acc e => match g e with | some d => acc ++ [d] | none => acc) acc
        = acc ++ es.filterMap g := by
  intro es
  induction es with
  | nil => intro acc; simp
  | cons e es ih =>
      intro acc
      cases h : g e with
      | none => simp [List.foldl_cons, h, ih, List.filterMap_cons]
      | some d => simp [List.foldl_cons, h, ih, List.filterMap_cons]

theorem buildEmbeds_eq_filterMap (es : List Embed) :
    buildEmbeds es = es.filterMap Embed.toDict := by
  simpa using foldl_filterMap_step Embed.toDict es []

theorem on_message_self (cfg : Config) (st : BotState) (m : Message) (oc : PostOutcome)
    (h : m.authorId = cfg.botUserId) : on_message cfg st m oc = (st, []) := by
  simp [on_message, h]

theorem on_message_unmonitored (cfg : Config) (st : BotState) (m : Message) (oc : PostOutcome)
    (h : m.channelId ∉ SOURCE_CHANNEL_IDS) : on_message cfg st m oc = (st, []) := by
  rcases Decidable.em (m.authorId = cfg.botUserId) with hb | hb
  · simp [on_message, hb]
  · simp [on_message, hb, h]

theorem on_message_dup (cfg : Config) (st : BotState) (m : Message) (oc : PostOutcome)
    (h : m.id ∈ st.recentIds) : on_message cfg st m oc = (st, []) := by
  rcases Decidable.em (m.authorId = cfg.botUserId) with hb | hb
  · simp [on_message, hb]
  · rcases Decidable.em (m.channelId ∈ SOURCE_CHANNEL_IDS) with hc | hc
    · simp [on_message, hb, hc, h]
    · simp [on_message, hb, hc]

theorem on_message_fresh (cfg : Config) (st : BotState) (m : Message) (oc : PostOutcome)
    (h1 : m.authorId ≠ cfg.botUserId) (h2 : m.channelId ∈ SOURCE_CHANNEL_IDS)
    (h3 : m.id ∉ st.recentIds) :
    on_message cfg st m oc =
      ({ st with recentIds := ledgerAfterInsert st.recentIds m.id },
        Action.log (forwardLogLine m) ::
          (match st.httpSession with
           | none => []
           | some s =>
               if s.closed then []
               else post_to_website (INGEST_TOKEN cfg) (buildPayload m) oc)) := by
  cases hs : st.httpSession with
  | none => simp [on_message, h1, h2, h3, hs]
  | some s =>
      by_cases hc : s.closed
      · simp [on_message, h1, h2, h3, hs, hc]
      · simp [on_message, h1, h2, h3, hs, hc]

theorem ledgerAfterInsert_card_le (ids : Finset Nat) (i : Nat) :
    (ledgerAfterInsert ids i).card ≤ 5000 := by
  unfold ledgerAfterInsert
  by_cases hb : (insert i ids).card > 5000
  · simp [hb]
  · simpa [hb] using Nat.le_of_not_lt hb

theorem on_message_card_le (cfg : Config) (st : BotState) (m : Message) (oc : PostOutcome)
    (h : st.recentIds.card ≤ 5000) :
    (on_message cfg st m oc).1.recentIds.card ≤ 5000 := by
  rcases Decidable.em (m.authorId = cfg.botUserId) with hb | hb
  · rw [on_message_self cfg st m oc hb]; exact h
  · rcases Decidable.em (m.channelId ∈ SOURCE_CHANNEL_IDS) with hc | hc
    · rcases Decidable.em (m.id ∈ st.recentIds) with hd | hd
      · rw [on_message_dup cfg st m oc hd]; exact h
      · rw [on_message_fresh cfg st m oc hb hc hd]
        exact ledgerAfterInsert_card_le st.recentIds m.id
    · rw [on_message_unmonitored cfg st m oc hc]; exact h

theorem run_messages_card_le (cfg : Config) :
    ∀ (evs : List (Message × PostOutcome)) (st : BotState),
      st.recentIds.card ≤ 5000 → (run_messages cfg st evs).recentIds.card ≤ 5000 := by
  intro evs
  induction evs with
  | nil => intro st h; simpa [run_messages] using h
  | cons ev evs ih =>
      intro st h
      have hstep := on_message_card_le cfg st ev.1 ev.2 h
      simpa [run_messages, List.foldl_cons] using ih _ hstep

theorem length_filterMap_toDict :
    ∀ es : List Embed,
      (es.filterMap Embed.toDict).length = es.countP (fun e => e.toDict.isSome) := by
  intro es
  induction es with
  | nil => rfl
  | cons e es ih =>
      cases h : e.toDict with
      | none => simp [List.filterMap_cons, List.countP_cons, h, ih]
      | some d => simp [List.filterMap_cons, List.countP_cons, h, ih]

theorem post_to_website_post_shape (tok : String) (p : Payload) (oc : PostOutcome)
    (a : Action) (ha : a ∈ post_to_website tok p oc) (hp : a.isPost = true) :
    a = Action.httpPost API_URL p (mkHeaders tok) 10 := by
  have hurl : ¬ (API_URL = "") := by decide
  cases oc with
  | response status body =>
      by_cases hst : status ≠ 200
      · simp only [post_to_website, hurl, reduceIte, List.mem_cons] at ha
        rw [if_pos hst] at ha
        simp only [List.mem_singleton, List.not_mem_nil, or_false] at ha
        rcases ha with h | h | h
        · exact h
        all_goals (rw [h] at hp; exact absurd hp (by simp [Action.isPost]))
      · simp only [post_to_website, hurl, reduceIte, List.mem_cons] at ha
        rw [if_neg hst] at ha
        simp only [List.mem_singleton, List.not_mem_nil, or_false] at ha
        rcases ha with h | h
        · exact h
        · rw [h] at hp; exact absurd hp (by simp [Action.isPost])
  | exc e =>
      simp only [post_to_website, hurl, reduceIte, List.mem_cons,
        List.mem_singleton, List.not_mem_nil, or_false] at ha
      rcases ha with h | h
      · exact h
      · rw [h] at hp; exact absurd hp (by simp [Action.isPost])

theorem countPosts_post_to_website (tok : String) (p : Payload) (oc : PostOutcome) :
    countPosts (post_to_website tok p oc) = 1 := by
  have hurl : ¬ (API_URL = "") := by decide
  cases oc with
  | response status body =>
      by_cases hst : status ≠ 200 <;>
        simp [post_to_website, hurl, hst, countPosts, Action.isPost]
  | exc e => simp [post_to_website, hurl, countPosts, Action.isPost]

theorem mkHeaders_contentType (tok : String) :
    ("Content-Type", "application/json") ∈ mkHeaders tok := by
  by_cases h : tok = "" <;> simp [mkHeaders, h]

theorem mkHeaders_token_iff (tok : String) :
    ("x-ingest-token", tok) ∈ mkHeaders tok ↔ tok ≠ "" := by
  by_cases h : tok = ""
  · subst h; simp [mkHeaders]
  · simp [mkHeaders, h]

/-! ## Concrete inputs for witnesses -/

/-- A sample configuration: bot user id 999, secret configured with
surrounding whitespace. -/
def cfg0 : Config := { botUserId := 999, ingestTokenEnv := some "  secret  " }

/-- A sample qualifying message on a monitored channel. -/
def m1 : Message :=
  { id := 7, authorId := 1, authorName := "alice",
    channelId := 1376084801974567033, channelName := some "picks",
    content := some "pick: Lakers -4",
    attachments := [{ filename := "a.png", url := "https://cdn/a.png",
                      contentType := some "image/png", size := 123 },
                    { filename := "b.txt", url := "https://cdn/b.txt",
                      contentType := none, size := 4 }],
    embeds := [{ toDict := some [("title", "t")] }, { toDict := none }],
    createdAtIso := "2024-01-01T00:00:00+00:00" }

/-- A state with an open session and an empty dedup ledger. -/
def st0 : BotState := { recentIds := ∅, httpSession := some { closed := false } }

/-- A state whose ledger already holds the id of `m1`. -/
def stDup : BotState := { recentIds := {7}, httpSession := some { closed := false } }

/-- A state with a closed session. -/
def stClosed : BotState := { recentIds := ∅, httpSession := some { closed := true } }

/-- A sample successful HTTP outcome. -/
def ocOk : PostOutcome := PostOutcome.response 200 "ok"

/-- A sample failing HTTP outcome. -/
def ocErr : PostOutcome := PostOutcome.response 500 "server error"

/-! ## Claim theorems -/

/-- C1: a message whose id is already in the dedup ledger is a no-op —
the handler returns with the state unchanged, an empty action trace, and
in particular zero HTTP POST attempts. -/
theorem claim_c1 (cfg : Config) (st : BotState) (m : Message) (oc : PostOutcome)
    (h : m.id ∈ st.recentIds) :
    on_message cfg st m oc = (st, []) ∧ countPosts (on_message cfg st m oc).2 = 0 := by
  have he := on_message_dup cfg st m oc h
  exact ⟨he, by rw [he]; rfl⟩

/-- Witness for C1 at a concrete duplicated message. -/
theorem claim_c1_witness :
    on_message cfg0 stDup m1 ocOk = (stDup, []) ∧
      countPosts (on_message cfg0 stDup m1 ocOk).2 = 0 :=
  claim_c1 cfg0 stDup m1 ocOk (by decide)

/-- C2: the ledger invariant.  From any state whose ledger holds at most
5000 ids, one handler run leaves at most 5000; when the insert of a fresh
qualifying id pushes the size over 5000 the resulting ledger is empty
(the just-inserted id discarded too); and over any whole sequence of runs
starting from an empty ledger the size at handler exit never exceeds
5000. -/
theorem claim_c2 (cfg : Config) (st : BotState) (m : Message) (oc : PostOutcome)
    (h : st.recentIds.card ≤ 5000) :
    (on_message cfg st m oc).1.recentIds.card ≤ 5000
    ∧ (m.authorId ≠ cfg.botUserId → m.channelId ∈ SOURCE_CHANNEL_IDS →
        m.id ∉ st.recentIds → (insert m.id st.recentIds).card > 5000 →
        (on_message cfg st m oc).1.recentIds = ∅)
    ∧ ∀ (evs : List (Message × PostOutcome)) (hs : Option Session),
        (run_messages cfg ⟨∅, hs⟩ evs).recentIds.card ≤ 5000 := by
  refine ⟨on_message_card_le cfg st m oc h, ?_, ?_⟩
  · intro h1 h2 h3 hover
    rw [on_message_fresh cfg st m oc h1 h2 h3]
    simp [ledgerAfterInsert, hover]
  · intro evs hs
    exact run_messages_card_le cfg evs ⟨∅, hs⟩ (by simp)

/-- Witness for C2 at a concrete state with an empty ledger. -/
theorem claim_c2_witness :
    (on_message cfg0 st0 m1 ocOk).1.recentIds.card ≤ 5000 :=
  (claim_c2 cfg0 st0 m1 ocOk (by decide)).1

/-- C3: forwarding is best-effort and never throws.  When the shared
session is absent or closed the handler issues zero POST attempts, and in
`post_to_website` every exceptional outcome of the POST is caught and
turned into an error log line — the call returns a trace for every
outcome instead of propagating. -/
theorem claim_c3 (cfg : Config) (st : BotState) (m : Message) (oc : PostOutcome)
    (h : st.httpSession = none ∨ ∃ s, st.httpSession = some s ∧ s.closed = true) :
    countPosts (on_message cfg st m oc).2 = 0
    ∧ ∀ (tok : String) (p : Payload) (e : String),
        post_to_website tok p (PostOutcome.exc e)
          = [Action.httpPost API_URL p (mkHeaders tok) 10,
             Action.log ("❌ Website POST error: " ++ e)] := by
  constructor
  · rcases Decidable.em (m.authorId = cfg.botUserId) with hb | hb
    · rw [on_message_self cfg st m oc hb]; rfl
    · rcases Decidable.em (m.channelId ∈ SOURCE_CHANNEL_IDS) with hc | hc
      · rcases Decidable.em (m.id ∈ st.recentIds) with hd | hd
        · rw [on_message_dup cfg st m oc hd]; rfl
        · rw [on_message_fresh cfg st m oc hb hc hd]
          rcases h with hn | ⟨s, hs, hcl⟩
          · rw [hn]; rfl
          · rw [hs]; simp [hcl, countPosts, Action.isPost]
      · rw [on_message_unmonitored cfg st m oc hc]; rfl
  · intro tok p e
    have hurl : ¬ (API_URL = "") := by decide
    simp [post_to_website, hurl]

/-- Witness for C3 at a concrete closed-session state. -/
theorem claim_c3_witness :
    countPosts (on_message cfg0 stClosed m1 ocOk).2 = 0
    ∧ ∀ (tok : String) (p : Payload) (e : String),
        post_to_website tok p (PostOutcome.exc e)
          = [Action.httpPost API_URL p (mkHeaders tok) 10,
             Action.log ("❌ Website POST error: " ++ e)] :=
  claim_c3 cfg0 stClosed m1 ocOk (Or.inr ⟨{ closed := true }, rfl, rfl⟩)

/-- C4: self-authored messages and messages on unmonitored channels leave
the state (the ledger in particular) unchanged and produce an empty
trace, hence zero HTTP calls. -/
theorem claim_c4 (cfg : Config) (st : BotState) (m : Message) (oc : PostOutcome)
    (h : m.authorId = cfg.botUserId ∨ m.channelId ∉ SOURCE_CHANNEL_IDS) :
    on_message cfg st m oc = (st, []) ∧ countPosts (on_message cfg st m oc).2 = 0 := by
  have he : on_message cfg st m oc = (st, []) := by
    rcases h with hb | hc
    · exact on_message_self cfg st m oc hb
    · exact on_message_unmonitored cfg st m oc hc
  exact ⟨he, by rw [he]; rfl⟩

/-- Witness for C4 at a concrete bot-authored message. -/
theorem claim_c4_witness :
    on_message cfg0 st0 { m1 with authorId := 999 } ocOk = (st0, []) ∧
      countPosts (on_message cfg0 st0 { m1 with authorId := 999 } ocOk).2 = 0 :=
  claim_c4 cfg0 st0 { m1 with authorId := 999 } ocOk (Or.inl rfl)

/-- C5: the id of a fresh qualifying message is inserted into the ledger
(when the insert stays within the 5000 bound, i.e. within one ledger
epoch), so handling the same message again — whatever the first POST
outcome was and whatever the second would be — is a no-op with zero
actions and zero HTTP calls. -/
theorem claim_c5 (cfg : Config) (st : BotState) (m : Message) (oc oc' : PostOutcome)
    (h1 : m.authorId ≠ cfg.botUserId) (h2 : m.channelId ∈ SOURCE_CHANNEL_IDS)
    (h3 : m.id ∉ st.recentIds) (h4 : (insert m.id st.recentIds).card ≤ 5000) :
    m.id ∈ (on_message cfg st m oc).1.recentIds
    ∧ on_message cfg (on_message cfg st m oc).1 m oc' = ((on_message cfg st m oc).1, [])
    ∧ countPosts (on_message cfg (on_message cfg st m oc).1 m oc').2 = 0 := by
  have hmem : m.id ∈ (on_message cfg st m oc).1.recentIds := by
    rw [on_message_fresh cfg st m oc h1 h2 h3]
    have hno : ¬ (insert m.id st.recentIds).card > 5000 := Nat.not_lt.mpr h4
    simp [ledgerAfterInsert, hno]
  have he := on_message_dup cfg (on_message cfg st m oc).1 m oc' hmem
  exact ⟨hmem, he, by rw [he]; rfl⟩

/-- Witness for C5 at a concrete fresh message on an empty ledger. -/
theorem claim_c5_witness :
    m1.id ∈ (on_message cfg0 st0 m1 ocErr).1.recentIds
    ∧ on_message cfg0 (on_message cfg0 st0 m1 ocErr).1 m1 ocOk
        = ((on_message cfg0 st0 m1 ocErr).1, [])
    ∧ countPosts (on_message cfg0 (on_message cfg0 st0 m1 ocErr).1 m1 ocOk).2 = 0 :=
  claim_c5 cfg0 st0 m1 ocErr ocOk (by decide) (by decide) (by decide) (by decide)

/-- C6: the payload maps attachments 1:1 and in order to
`{filename, url, contentType, size}` objects, and its embeds array holds
exactly the embeds whose serialization succeeded (failing ones silently
dropped), so its length is the number of embeds serialized without
error. -/
theorem claim_c6 (m : Message) :
    (buildPayload m).attachments
        = m.attachments.map (fun a =>
            { filename := a.filename, url := a.url,
              contentType := a.contentType, size := a.size })
    ∧ (buildPayload m).attachments.length = m.attachments.length
    ∧ (buildPayload m).embeds = m.embeds.filterMap Embed.toDict
    ∧ (buildPayload m).embeds.length = m.embeds.countP (fun e => e.toDict.isSome) := by
  have hatt : (buildPayload m).attachments = m.attachments.map mkAttachmentJson := by
    simp [buildPayload, buildAttachments_eq_map]
  have hemb : (buildPayload m).embeds = m.embeds.filterMap Embed.toDict := by
    simp [buildPayload, buildEmbeds_eq_filterMap]
  refine ⟨hatt, ?_, hemb, ?_⟩
  · rw [hatt, List.length_map]
  · rw [hemb, length_filterMap_toDict]

/-- C7: every POST attempt issued by a handler run targets the fixed URL
with a 10-second total timeout and the headers built from the configured
secret; those headers always carry `Content-Type: application/json`, and
carry `x-ingest-token` exactly when the secret, trimmed of whitespace, is
non-empty. -/
theorem claim_c7 (cfg : Config) (st : BotState) (m : Message) (oc : PostOutcome)
    (a : Action) (ha : a ∈ (on_message cfg st m oc).2) (hp : a.isPost = true) :
    a = Action.httpPost API_URL (buildPayload m) (mkHeaders (INGEST_TOKEN cfg)) 10
    ∧ ("Content-Type", "application/json") ∈ mkHeaders (INGEST_TOKEN cfg)
    ∧ ((("x-ingest-token", INGEST_TOKEN cfg) ∈ mkHeaders (INGEST_TOKEN cfg))
        ↔ (cfg.ingestTokenEnv.getD "").trim ≠ "") := by
  refine ⟨?_, mkHeaders_contentType _, mkHeaders_token_iff _⟩
  rcases Decidable.em (m.authorId = cfg.botUserId) with hb | hb
  · rw [on_message_self cfg st m oc hb] at ha; exact absurd ha (List.not_mem_nil a)
  · rcases Decidable.em (m.channelId ∈ SOURCE_CHANNEL_IDS) with hc | hc
    · rcases Decidable.em (m.id ∈ st.recentIds) with hd | hd
      · rw [on_message_dup cfg st m oc hd] at ha; exact absurd ha (List.not_mem_nil a)
      · rw [on_message_fresh cfg st m oc hb hc hd] at ha
        rcases List.mem_cons.mp ha with hlog | htail
        · rw [hlog] at hp; exact absurd hp (by simp [Action.isPost])
        · cases hs : st.httpSession with
          | none => rw [hs] at htail; exact absurd htail (List.not_mem_nil a)
          | some s =>
              rw [hs] at htail
              by_cases hcl : s.closed
              · simp only [hcl, reduceIte] at htail
                exact absurd htail (List.not_mem_nil a)
              · simp only [hcl, reduceIte] at htail
                exact post_to_website_post_shape _ _ _ a htail hp
    · rw [on_message_unmonitored cfg st m oc hc] at ha
      exact absurd ha (List.not_mem_nil a)

/-- Witness for C7 at a concrete qualifying message with an open session. -/
theorem claim_c7_witness :
    Action.httpPost API_URL (buildPayload m1) (mkHeaders (INGEST_TOKEN cfg0)) 10
        = Action.httpPost API_URL (buildPayload m1) (mkHeaders (INGEST_TOKEN cfg0)) 10
    ∧ ("Content-Type", "application/json") ∈ mkHeaders (INGEST_TOKEN cfg0)
    ∧ ((("x-ingest-token", INGEST_TOKEN cfg0) ∈ mkHeaders (INGEST_TOKEN cfg0))
        ↔ (cfg0.ingestTokenEnv.getD "").trim ≠ "") :=
  claim_c7 cfg0 st0 m1 ocOk
    (Action.httpPost API_URL (buildPayload m1) (mkHeaders (INGEST_TOKEN cfg0)) 10)
    (by
      have hl : (on_message cfg0 st0 m1 ocOk).2
          = [Action.log (forwardLogLine m1),
             Action.httpPost API_URL (buildPayload m1) (mkHeaders (INGEST_TOKEN cfg0)) 10,
             Action.log ("✅ Posted to website " ++ toString 200)] := rfl
      rw [hl]
      exact List.mem_cons_of_mem _ (List.mem_cons_self _ _))
    rfl

/-- C8: on every received response the status code is logged; when the
status is not 200 the response body is additionally logged, and when it
is 200 the trace is exactly the POST attempt plus the status log (nothing
more); and a handler run never issues more than one POST attempt, so a
non-200 response triggers no retry. -/
theorem claim_c8 (tok : String) (p : Payload) (status : Nat) (body : String)
    (cfg : Config) (st : BotState) (m : Message) (oc : PostOutcome) :
    Action.log ("✅ Posted to website " ++ toString status)
        ∈ post_to_website tok p (PostOutcome.response status body)
    ∧ (status ≠ 200 →
        Action.log ("⚠️ Website response: " ++ body)
          ∈ post_to_website tok p (PostOutcome.response status body))
    ∧ (status = 200 →
        post_to_website tok p (PostOutcome.response status body)
          = [Action.httpPost API_URL p (mkHeaders tok) 10,
             Action.log ("✅ Posted to website " ++ toString status)])
    ∧ countPosts (on_message cfg st m oc).2 ≤ 1 := by
  have hurl : ¬ (API_URL = "") := by decide
  refine ⟨?_, ?_, ?_, ?_⟩
  · simp [post_to_website, hurl]
  · intro hst
    simp only [post_to_website, hurl, reduceIte, List.mem_cons]
    rw [if_pos hst]
    simp
  · intro hst
    simp only [post_to_website, hurl, reduceIte]
    rw [if_neg (by simpa using hst)]
  · rcases Decidable.em (m.authorId = cfg.botUserId) with hb | hb
    · rw [on_message_self cfg st m oc hb]; simp [countPosts]
    · rcases Decidable.em (m.channelId ∈ SOURCE_CHANNEL_IDS) with hc | hc
      · rcases Decidable.em (m.id ∈ st.recentIds) with hd | hd
        · rw [on_message_dup cfg st m oc hd]; simp [countPosts]
        · rw [on_message_fresh cfg st m oc hb hc hd]
          cases hs : st.httpSession with
          | none => simp [countPosts, Action.isPost]
          | some s =>
              by_cases hcl : s.closed
              · simp [hcl, countPosts, Action.isPost]
              · simp only [hcl, reduceIte]
                have h1 : List.countP Action.isPost
                    (post_to_website (INGEST_TOKEN cfg) (buildPayload m) oc) = 1 :=
                  countPosts_post_to_website (INGEST_TOKEN cfg) (buildPayload m) oc
                simp [countPosts, List.countP_cons, Action.isPost, h1]
      · rw [on_message_unmonitored cfg st m oc hc]; simp [countPosts]

/-- Witness for C8 at a concrete 500 response. -/
theorem claim_c8_witness :
    Action.log ("✅ Posted to website " ++ toString 500)
        ∈ post_to_website "tok" (buildPayload m1) (PostOutcome.response 500 "server error")
    ∧ (500 ≠ 200 →
        Action.log ("⚠️ Website response: " ++ "server error")
          ∈ post_to_website "tok" (buildPayload m1) (PostOutcome.response 500 "server error"))
    ∧ (500 = 200 →
        post_to_website "tok" (buildPayload m1) (PostOutcome.response 500 "server error")
          = [Action.httpPost API_URL (buildPayload m1) (mkHeaders "tok") 10,
             Action.log ("✅ Posted to website " ++ toString 500)])
    ∧ countPosts (on_message cfg0 st0 m1 ocErr).2 ≤ 1 :=
  claim_c8 "tok" (buildPayload m1) 500 "server error" cfg0 st0 m1 ocErr

/-- C9: when the shared session is absent or closed, a fresh qualifying
message still updates the dedup ledger exactly as when it is open (insert
then possible clear) while issuing zero POST attempts; within the same
ledger epoch its id is then present, so a redelivery is a complete no-op
even though the message was never sent. -/
theorem claim_c9 (cfg : Config) (st : BotState) (m : Message) (oc oc' : PostOutcome)
    (hdown : st.httpSession = none ∨ ∃ s, st.httpSession = some s ∧ s.closed = true)
    (h1 : m.authorId ≠ cfg.botUserId) (h2 : m.channelId ∈ SOURCE_CHANNEL_IDS)
    (h3 : m.id ∉ st.recentIds) :
    countPosts (on_message cfg st m oc).2 = 0
    ∧ (on_message cfg st m oc).1.recentIds = ledgerAfterInsert st.recentIds m.id
    ∧ ((insert m.id st.recentIds).card ≤ 5000 →
        m.id ∈ (on_message cfg st m oc).1.recentIds
        ∧ on_message cfg (on_message cfg st m oc).1 m oc'
            = ((on_message cfg st m oc).1, [])) := by
  have hfresh := on_message_fresh cfg st m oc h1 h2 h3
  refine ⟨?_, ?_, ?_⟩
  · rw [hfresh]
    rcases hdown with hn | ⟨s, hs, hcl⟩
    · rw [hn]; rfl
    · rw [hs]; simp [hcl, countPosts, Action.isPost]
  · rw [hfresh]
  · intro h4
    have hmem : m.id ∈ (on_message cfg st m oc).1.recentIds := by
      rw [hfresh]
      have hno : ¬ (insert m.id st.recentIds).card > 5000 := Nat.not_lt.mpr h4
      simp [ledgerAfterInsert, hno]
    exact ⟨hmem, on_message_dup cfg (on_message cfg st m oc).1 m oc' hmem⟩

/-- Witness for C9 at a concrete closed-session state with an empty
ledger. -/
theorem claim_c9_witness :
    countPosts (on_message cfg0 stClosed m1 ocOk).2 = 0
    ∧ (on_message cfg0 stClosed m1 ocOk).1.recentIds
        = ledgerAfterInsert stClosed.recentIds m1.id
    ∧ ((insert m1.id stClosed.recentIds).card ≤ 5000 →
        m1.id ∈ (on_message cfg0 stClosed m1 ocOk).1.recentIds
        ∧ on_message cfg0 (on_message cfg0 stClosed m1 ocOk).1 m1 ocErr
            = ((on_message cfg0 stClosed m1 ocOk).1, [])) :=
  claim_c9 cfg0 stClosed m1 ocOk ocErr
    (Or.inr ⟨{ closed := true }, rfl, rfl⟩) (by decide) (by decide) (by decide)

/-- C10: the payload's content field is the string `message.content or ""`
— it equals the message content when that is a non-empty string, and the
empty string when the content is absent or empty, so it is never null. -/
theorem claim_c10 (m : Message) :
    (buildPayload m).content = m.content.getD ""
    ∧ ((m.content = none ∨ m.content = some "") → (buildPayload m).content = "") := by
  constructor
  · cases hc : m.content with
    | none => simp [buildPayload, pyOrEmpty, hc]
    | some s =>
        by_cases hs : s = "" <;> simp [buildPayload, pyOrEmpty, hc, hs]
  · intro h
    rcases h with hc | hc <;> simp [buildPayload, pyOrEmpty, hc]

/-- Witness for C10 at a concrete message with absent content. -/
theorem claim_c10_witness :
    (buildPayload { m1 with content := none }).content = "" :=
  (claim_c10 { m1 with content := none }).2 (Or.inl rfl)

end Forwardbot
